import Mathlib

/-!
Verification of the SmartSim PBS launcher subsystem
(`smartsim/launcher/pbs/pbsLauncher.py`).

The collaborators of the launcher (`StepMapping`, `TaskManager`, the `StepInfo`
classes, the PBS command wrappers and text parsers, and the error classes)
are part of this repository but are not present under `src/`; where a
definition embeds one of them it is modelled from the spec and its doc
comment says so.  External effects (the `qsub`/`qstat`/`qdel` command-line
tools, process spawning) are modelled as oracle parameters, so theorems
quantify over every possible behaviour of the external scheduler.
-/

set_option autoImplicit false

namespace SmartSimPBS

/-- Modelled from the spec: the canonical status enum of the Status Model
(§4.1) — `Pending`, `Running`, `Completed`, `Failed`, `Cancelled`, `Unknown`
(the string constants live in `smartsim/constants.py`, which is not under
`src/`). -/
inductive Status where
  | Pending
  | Running
  | Completed
  | Failed
  | Cancelled
  | Unknown
deriving DecidableEq, Repr

/-- Modelled from the spec: `StepInfo` (§3) — {canonical status, return code
(optional until terminal), raw output references}; the concrete class lives in
`smartsim/launcher/stepInfo.py`, which is not under `src/`. -/
structure StepInfo where
  status : Status
  returncode : Option Int
  output : Option String
  error : Option String
deriving DecidableEq, Repr

/-- Modelled from the spec: a Mapping Entry (§3) — {scheduler-assigned step id
(optional), supervisor task id (optional), managed flag}; the step name is the
key under which the entry is stored.  The concrete class lives in
`smartsim/launcher/stepMapping.py`, which is not under `src/`. -/
structure StepMap where
  step_id : Option String
  task_id : Option String
  managed : Bool
deriving DecidableEq, Repr

/-- The Step Mapping Registry: one entry per active step name. -/
abbrev StepMapping := List (String × StepMap)

/-- Python truthiness of an optional string: `None` and `""` are falsy. -/
def pyTruthy : Option String → Bool
  | none => false
  | some s => s ≠ ""

/-- Python `str()` applied to an optional string (`str(None) = "None"`). -/
def pyStr : Option String → String
  | none => "None"
  | some s => s

/-- Python `str.strip()`: remove leading and trailing whitespace.  Defined by
structural recursion over the character list so that the kernel can evaluate
it (`String.trim` in core is defined through well-founded recursion and does
not reduce definitionally). -/
def pyStrip (s : String) : String :=
  ⟨((s.data.dropWhile Char.isWhitespace).reverse.dropWhile
      Char.isWhitespace).reverse⟩

/-- `[]`-style lookup by name returning the full entry (spec §4.3); `none`
models the `KeyError` raised on an unregistered name. -/
def StepMapping.lookupEntry (m : StepMapping) (name : String) : Option StepMap :=
  match m with
  | [] => none
  | (n, e) :: rest => if n = name then some e else StepMapping.lookupEntry rest name

/-- Modelled from the spec: `StepMapping.add(name, step_id, task_id, managed)`
creates or replaces the entry for `name` (§4.3); `stepMapping.py` is not under
`src/`. -/
def StepMapping.add (m : StepMapping) (name : String) (sid tid : Option String)
    (mg : Bool) : StepMapping :=
  match m with
  | [] => [(name, ⟨sid, tid, mg⟩)]
  | (n, e) :: rest =>
    if n = name then (name, ⟨sid, tid, mg⟩) :: rest
    else (n, e) :: StepMapping.add rest name sid tid mg

/-- Modelled from the spec: `StepMapping.get_ids(names, managed)` returns two
parallel sequences, walking the requested names in order and keeping only
those names whose entry has a `managed` flag that matches the filter; the id emitted is the
step id for managed entries and the task id for unmanaged ones; names with no
entry or a non-matching flag are silently skipped (§4.3); `stepMapping.py` is
not under `src/`. -/
def StepMapping.get_ids (m : StepMapping) (names : List String) (mg : Bool) :
    List String × List (Option String) :=
  match names with
  | [] => ([], [])
  | n :: rest =>
    let (ns, ids) := m.get_ids rest mg
    match m.lookupEntry n with
    | some e =>
      if e.managed = mg then (n :: ns, (if mg then e.step_id else e.task_id) :: ids)
      else (ns, ids)
    | none => (ns, ids)

/-- Whether a requested name has a registered entry whose managed flag matches
the filter — the predicate `get_ids` keeps. -/
def matchesFilter (m : StepMapping) (mg : Bool) (n : String) : Bool :=
  match m.lookupEntry n with
  | some e => e.managed = mg
  | none => false

/-- The name/id pairs `get_ids` produces, fused with a per-id update function:
used to characterise `get_step_update`. -/
def pairedUpdates (m : StepMapping) (mg : Bool) (f : Option String → StepInfo)
    (names : List String) : List (String × StepInfo) :=
  names.filterMap fun n =>
    match m.lookupEntry n with
    | some e =>
      if e.managed = mg then some (n, f (if mg then e.step_id else e.task_id))
      else none
    | none => none

theorem get_ids_fst (m : StepMapping) (mg : Bool) :
    ∀ names : List String, (m.get_ids names mg).1 = names.filter (matchesFilter m mg) := by
  intro names
  induction names with
  | nil => rfl
  | cons n rest ih =>
    simp only [StepMapping.get_ids, List.filter, matchesFilter]
    cases h : m.lookupEntry n with
    | none => simpa [h] using ih
    | some e =>
      by_cases hm : e.managed = mg
      · simp [h, hm, ih]
      · simp [h, hm, ih]

theorem get_ids_length (m : StepMapping) (mg : Bool) :
    ∀ names : List String, (m.get_ids names mg).1.length = (m.get_ids names mg).2.length := by
  intro names
  induction names with
  | nil => rfl
  | cons n rest ih =>
    simp only [StepMapping.get_ids]
    cases h : m.lookupEntry n with
    | none => simpa [h] using ih
    | some e =>
      by_cases hm : e.managed = mg
      · simp [h, hm, ih]
      · simp [h, hm, ih]

theorem get_ids_zip (m : StepMapping) (mg : Bool) (f : Option String → StepInfo) :
    ∀ names : List String,
      (m.get_ids names mg).1.zip ((m.get_ids names mg).2.map f) =
        pairedUpdates m mg f names := by
  intro names
  induction names with
  | nil => rfl
  | cons n rest ih =>
    simp only [StepMapping.get_ids, pairedUpdates, List.filterMap]
    cases h : m.lookupEntry n with
    | none => simpa [h, pairedUpdates] using ih
    | some e =>
      by_cases hm : e.managed = mg
      · simpa [h, hm, pairedUpdates] using ih
      · simpa [h, hm, pairedUpdates] using ih

/-- The exceptions `pbsLauncher.py` raises or catches.  `launcherError`
embeds `LauncherError` and `ssUnsupportedError` embeds `SSUnsupportedError`
(classes in `smartsim/error`, not under `src/`, carrying one message);
`ssConfigError` embeds `SSConfigError`; `typeError` embeds the Python built-in
`TypeError` raised for an unsupported settings type. -/
inductive PyError where
  | launcherError (msg : String)
  | ssUnsupportedError (msg : String)
  | ssConfigError (msg : String)
  | typeError (msg : String)
deriving DecidableEq, Repr

/-- The settings kinds the PBS launcher dispatches on (`AprunSettings`,
`QsubBatchSettings`, `MpirunSettings`), plus `otherKind` for any settings
object of a type outside those three (e.g. `SrunSettings`), carrying the name
the Python `type()` function would print. -/
inductive StepSettings where
  | aprun (missingRequired : Bool)
  | qsubBatch (missingRequired : Bool)
  | mpirun (missingRequired : Bool)
  | otherKind (typeName : String)
deriving DecidableEq, Repr

/-- The Step subtypes built by `create_step`. -/
inductive StepKind where
  | aprunStep
  | qsubBatchStep
  | mpirunStep
deriving DecidableEq, Repr

/-- Modelled from the spec: the `managed` flag of each Step subtype (the Step
classes live in `smartsim/launcher/step.py`, not under `src/`): the lifecycle of a batch step is owned by the external scheduler (managed), while direct-run steps
are tracked only by the Task Supervisor (unmanaged) — spec §4.4 and glossary. -/
def StepKind.managed : StepKind → Bool
  | .qsubBatchStep => true
  | .aprunStep => false
  | .mpirunStep => false

/-- A constructed job step: {name, working directory, kind}. -/
structure Step where
  name : String
  cwd : String
  kind : StepKind
deriving DecidableEq, Repr

def Step.managed (s : Step) : Bool := s.kind.managed

/-- Modelled from the spec: a Step constructor validates its settings and
raises `SSConfigError` when required settings are missing (spec §7:
"missing required settings ... raised synchronously"); `step.py` is not under
`src/`. -/
def mkStep (k : StepKind) (name cwd : String) (missingRequired : Bool) :
    Except PyError Step :=
  if missingRequired then .error (.ssConfigError ("missing required settings"))
  else .ok ⟨name, cwd, k⟩

/-- `PBSLauncher.create_step` (`pbsLauncher.py` lines 63-91): dispatches on
the settings type to the matching Step constructor; an unsupported type raises
`TypeError`; an `SSConfigError` escaping a constructor is caught and re-raised
as `LauncherError`. -/
def create_step (name cwd : String) (s : StepSettings) : Except PyError Step :=
  let body : Except PyError Step :=
    match s with
    | .aprun miss => mkStep .aprunStep name cwd miss
    | .qsubBatch miss => mkStep .qsubBatchStep name cwd miss
    | .mpirun miss => mkStep .mpirunStep name cwd miss
    | .otherKind t =>
      .error (.typeError ("RunSettings type " ++ t ++ " not supported by PBSPro"))
  match body with
  | .error (.ssConfigError msg) =>
    .error (.launcherError ("Job step creation failed: " ++ msg))
  | r => r

/-- Oracle for one `run` invocation: the result of the blocking submission
command (`TaskManager.start_and_wait`, returning exit code, stdout, stderr),
the task id a direct-run spawn would return (`TaskManager.start_task`), and
the parsed result of the k-th `qstat` poll during identifier resolution
(`parse_step_id_from_qstat` applied to the k-th `qstat -f -F json` output for
the name of this step; `none` models a parse that finds no matching entry).
`taskManager.py`, `pbsCommands.py` and `pbsParser.py` are not under `src/`. -/
structure RunEnv where
  submit : Int × String × String
  startTask : String
  query : Nat → Option String

/-- The retry loop of `_get_pbs_step_id` (`pbsLauncher.py` lines 199-206):
with `t` trials remaining and `k` queries already made, poll once; a truthy
parse breaks out, otherwise decrement and retry; when trials run out, the loop
leaves the last parse result (initially `"unassigned"`) in `step_id`. -/
def pbsIdLoop (query : Nat → Option String) : Nat → Nat → Option String → Option String
  | 0, _, acc => acc
  | t + 1, k, _ =>
    let r := query k
    if pyTruthy r then r else pbsIdLoop query t (k + 1) r

/-- `PBSLauncher._get_pbs_step_id` (`pbsLauncher.py` lines 191-209): poll
`qstat` up to `trials` times for an entry matching the name of the step; a falsy
final result raises `LauncherError`.  The fixed `time.sleep(interval)` delays
are real-time behaviour with no effect on the returned value and are not
modelled. -/
def getPbsStepId (query : Nat → Option String) (trials : Nat) :
    Except PyError String :=
  let r := pbsIdLoop query trials 0 (some ("unassigned"))
  if pyTruthy r then .ok (r.getD "")
  else .error (.launcherError ("Could not find id of launched job step"))

/-- `PBSLauncher.run` (`pbsLauncher.py` lines 131-167).  Batch steps run the
submission command synchronously: a non-zero exit raises `LauncherError` with
the captured output; non-empty stdout is stripped and used as the step id.
Direct-run steps spawn asynchronously and keep the returned task id.  A
managed step still lacking a truthy step id resolves it via
`_get_pbs_step_id`; finally the result is registered in the Step Mapping
Registry under the name of the step and the step id is returned.  An error return
models the Python exception propagating before `step_mapping.add` runs, so no
entry is added. -/
def run (env : RunEnv) (m : StepMapping) (step : Step) :
    Except PyError (Option String × StepMapping) :=
  let branch : Except PyError (Option String × Option String) :=
    if step.kind = .qsubBatchStep then
      let (rc, out, err) := env.submit
      if rc ≠ 0 then
        .error (.launcherError ("Qsub batch submission failed\n " ++ out ++ "\n " ++ err))
      else
        .ok ((if out ≠ "" then some (pyStrip out) else none), none)
    else
      .ok (none, some env.startTask)
  match branch with
  | .error e => .error e
  | .ok (step_id0, task_id) =>
    let resolved : Except PyError (Option String) :=
      if ¬ pyTruthy step_id0 ∧ step.managed then
        (getPbsStepId env.query 5).map some
      else .ok step_id0
    match resolved with
    | .error e => .error e
    | .ok step_id =>
      .ok (step_id, m.add step.name step_id task_id step.managed)

/-- Oracle for polling: `rawMap` is the PBS raw-status-to-canonical map of
`PBSStepInfo` (in `stepInfo.py`, not under `src/`); `parseStat` is
`parse_qstat_jobid` applied to the batched `qstat` output, per queried id
(`none` models a job id absent from the output); `taskUpdate` is
`TaskManager.get_task_update`, already normalised to a canonical status. -/
structure PollEnv where
  rawMap : String → Status
  parseStat : String → Option String
  taskUpdate : String → Status × Option Int × Option String × Option String

/-- Modelled from the spec: `PBSStepInfo(stat, returncode)` — maps the raw
`qstat` status through the backend map, and classifies a job no longer present
in the records of the scheduler (`parse_qstat_jobid` found nothing, with no error
raised) as `Completed` (spec §4.1 policy rule); output references default to
none.  `stepInfo.py` is not under `src/`. -/
def PBSStepInfo.mkInfo (rawMap : String → Status) (raw : Option String)
    (rc : Option Int) : StepInfo :=
  { status := match raw with
      | none => .Completed
      | some s => rawMap s
    returncode := rc
    output := none
    error := none }

/-- Modelled from the spec: `UnmanagedStepInfo(stat, rc, out, err)` stores the
normalised snapshot from the Supervisor; `stepInfo.py` is not under `src/`. -/
def UnmanagedStepInfo.mkInfo (stat : Status) (rc : Option Int)
    (out err : Option String) : StepInfo :=
  ⟨stat, rc, out, err⟩

/-- The `StepInfo` built for one managed id inside
`_get_managed_step_update` (`pbsLauncher.py` lines 225-231): construct
`PBSStepInfo(stat, None)` and, to account for job history not being logged by
PBS, force return code 0 whenever the canonical status is `Completed`. -/
def managedInfoFor (env : PollEnv) (sid : Option String) : StepInfo :=
  let info := PBSStepInfo.mkInfo env.rawMap (env.parseStat (pyStr sid)) none
  if info.status = Status.Completed then { info with returncode := some 0 }
  else info

/-- `PBSLauncher._get_managed_step_update` (`pbsLauncher.py` lines 211-232):
one batched `qstat` call, then one `PBSStepInfo` per queried step id. -/
def getManagedStepUpdate (env : PollEnv) (step_ids : List (Option String)) :
    List StepInfo :=
  step_ids.map (managedInfoFor env)

/-- The `StepInfo` built for one task id inside
`_get_unmanaged_step_update` (`pbsLauncher.py` lines 243-246). -/
def unmanagedInfoFor (env : PollEnv) (tid : Option String) : StepInfo :=
  let (stat, rc, out, err) := env.taskUpdate (pyStr tid)
  UnmanagedStepInfo.mkInfo stat rc out err

/-- `PBSLauncher._get_unmanaged_step_update` (`pbsLauncher.py` lines
234-247): one Supervisor query per task id. -/
def getUnmanagedStepUpdate (env : PollEnv) (task_ids : List (Option String)) :
    List StepInfo :=
  task_ids.map (unmanagedInfoFor env)

/-- `PBSLauncher.get_step_update` (`pbsLauncher.py` lines 93-117): split the
requested names into managed and unmanaged via the Registry, fetch updates for
each non-empty subset, pair each update with its name by position, and return
managed results first. -/
def get_step_update (env : PollEnv) (m : StepMapping) (step_names : List String) :
    List (String × StepInfo) :=
  let (s_names, step_ids) := m.get_ids step_names true
  let updates1 :=
    if step_ids.length > 0 then s_names.zip (getManagedStepUpdate env step_ids)
    else []
  let (t_names, task_ids) := m.get_ids step_names false
  let updates2 :=
    if task_ids.length > 0 then t_names.zip (getUnmanagedStepUpdate env task_ids)
    else []
  updates1 ++ updates2

/-- `PBSLauncher.stop` (`pbsLauncher.py` lines 169-189): look up the entry
(`none` in the first component models the `KeyError` on an unregistered
name); for a managed entry run `qdel` and log a warning — without raising —
when it exits non-zero; re-poll the step once and override the returned
status to `Cancelled`.  `qdel_rc`/`qdel_err` are the exit code and stderr of the cancel command; the second component collects the logged warnings.  Task
removal from the Supervisor touches state outside the result of this function and
is not modelled. -/
def stop (env : PollEnv) (qdel_rc : Int) (qdel_err : String) (m : StepMapping)
    (step_name : String) : Option StepInfo × List String :=
  match m.lookupEntry step_name with
  | none => (none, [])
  | some stepmap =>
    let warnings :=
      if stepmap.managed ∧ qdel_rc ≠ 0 then
        ["Unable to cancel job step " ++ step_name ++ "\n " ++ qdel_err]
      else []
    match (get_step_update env m [step_name]).head? with
    | none => (none, warnings)
    | some (_, info) => (some { info with status := .Cancelled }, warnings)

theorem lookupEntry_add_self (name : String) (sid tid : Option String) (mg : Bool) :
    ∀ m : StepMapping,
      (m.add name sid tid mg).lookupEntry name = some ⟨sid, tid, mg⟩ := by
  intro m
  induction m with
  | nil => simp [StepMapping.add, StepMapping.lookupEntry]
  | cons p rest ih =>
    obtain ⟨n, e⟩ := p
    by_cases h : n = name
    · simp [StepMapping.add, StepMapping.lookupEntry, h]
    · simp [StepMapping.add, StepMapping.lookupEntry, h, ih]

theorem pairedUpdates_map_fst (m : StepMapping) (mg : Bool)
    (f : Option String → StepInfo) :
    ∀ names : List String,
      (pairedUpdates m mg f names).map Prod.fst = names.filter (matchesFilter m mg) := by
  intro names
  induction names with
  | nil => rfl
  | cons n rest ih =>
    simp only [pairedUpdates, List.filterMap, List.filter, matchesFilter] at *
    cases h : m.lookupEntry n with
    | none => simpa [h] using ih
    | some e =>
      by_cases hm : e.managed = mg
      · simp [h, hm, ih]
      · simp [h, hm, ih]

theorem pairedUpdates_mem (m : StepMapping) (mg : Bool)
    (f : Option String → StepInfo) (names : List String)
    (pr : String × StepInfo) (hmem : pr ∈ pairedUpdates m mg f names) :
    ∃ e : StepMap, m.lookupEntry pr.1 = some e ∧ e.managed = mg ∧
      pr.2 = f (if mg then e.step_id else e.task_id) ∧ pr.1 ∈ names := by
  rw [pairedUpdates, List.mem_filterMap] at hmem
  obtain ⟨n, hn, hfn⟩ := hmem
  cases h : m.lookupEntry n with
  | none => simp [h] at hfn
  | some e =>
    by_cases hm : e.managed = mg
    · simp only [h, if_pos hm] at hfn
      obtain rfl := Option.some.inj hfn
      exact ⟨e, by simpa using h, hm, by simp, by simpa using hn⟩
    · simp [h, hm] at hfn

theorem pairedUpdates_single (m : StepMapping) (mg : Bool)
    (f : Option String → StepInfo) (n : String) (e : StepMap)
    (h : m.lookupEntry n = some e) :
    pairedUpdates m mg f [n] =
      if e.managed = mg then [(n, f (if mg then e.step_id else e.task_id))]
      else [] := by
  by_cases hm : e.managed = mg
  · simp [pairedUpdates, h, hm]
  · simp [pairedUpdates, h, hm]

theorem get_step_update_eq (env : PollEnv) (m : StepMapping) (names : List String) :
    get_step_update env m names =
      pairedUpdates m true (managedInfoFor env) names ++
        pairedUpdates m false (unmanagedInfoFor env) names := by
  rcases h1 : m.get_ids names true with ⟨s_names, step_ids⟩
  rcases h2 : m.get_ids names false with ⟨t_names, task_ids⟩
  have z1 := get_ids_zip m true (managedInfoFor env) names
  have z2 := get_ids_zip m false (unmanagedInfoFor env) names
  rw [h1] at z1
  rw [h2] at z2
  have g1 : (if step_ids.length > 0 then
      s_names.zip (getManagedStepUpdate env step_ids) else []) =
      s_names.zip (step_ids.map (managedInfoFor env)) := by
    cases step_ids with
    | nil => simp
    | cons a l => simp [getManagedStepUpdate]
  have g2 : (if task_ids.length > 0 then
      t_names.zip (getUnmanagedStepUpdate env task_ids) else []) =
      t_names.zip (task_ids.map (unmanagedInfoFor env)) := by
    cases task_ids with
    | nil => simp
    | cons a l => simp [getUnmanagedStepUpdate]
  calc get_step_update env m names
      = (if step_ids.length > 0 then
          s_names.zip (getManagedStepUpdate env step_ids) else []) ++
        (if task_ids.length > 0 then
          t_names.zip (getUnmanagedStepUpdate env task_ids) else []) := by
        simp only [get_step_update, h1, h2]
    _ = s_names.zip (step_ids.map (managedInfoFor env)) ++
        t_names.zip (task_ids.map (unmanagedInfoFor env)) := by rw [g1, g2]
    _ = pairedUpdates m true (managedInfoFor env) names ++
        pairedUpdates m false (unmanagedInfoFor env) names := by rw [z1, z2]

theorem get_step_update_single (env : PollEnv) (m : StepMapping) (n : String)
    (e : StepMap) (h : m.lookupEntry n = some e) :
    get_step_update env m [n] =
      [(n, if e.managed then managedInfoFor env e.step_id
           else unmanagedInfoFor env e.task_id)] := by
  rw [get_step_update_eq,
      pairedUpdates_single m true (managedInfoFor env) n e h,
      pairedUpdates_single m false (unmanagedInfoFor env) n e h]
  cases hm : e.managed
  · simp [hm]
  · simp [hm]

theorem pbsIdLoop_falsy (query : Nat → Option String) :
    ∀ (t k : Nat) (acc : Option String), 0 < t →
      (∀ j, j < t → pyTruthy (query (k + j)) = false) →
      pyTruthy (pbsIdLoop query t k acc) = false := by
  intro t
  induction t with
  | zero => intro k acc h; omega
  | succ t ih =>
    intro k acc _ hall
    have h0 : pyTruthy (query k) = false := by simpa using hall 0 (Nat.succ_pos t)
    cases t with
    | zero => simp [pbsIdLoop, h0]
    | succ t2 =>
      have hrec : ∀ j, j < t2 + 1 → pyTruthy (query (k + 1 + j)) = false := by
        intro j hj
        have := hall (j + 1) (by omega)
        have harith : k + (j + 1) = k + 1 + j := by omega
        rwa [harith] at this
      simpa [pbsIdLoop, h0] using ih (k + 1) (query k) (Nat.succ_pos t2) hrec

theorem pbsIdLoop_truthy (query : Nat → Option String) :
    ∀ (j t k : Nat) (acc : Option String), j < t →
      pyTruthy (query (k + j)) = true →
      (∀ i, i < j → pyTruthy (query (k + i)) = false) →
      pbsIdLoop query t k acc = query (k + j) := by
  intro j
  induction j with
  | zero =>
    intro t k acc hj htr _
    cases t with
    | zero => omega
    | succ t2 =>
      have h : pyTruthy (query k) = true := by simpa using htr
      simp [pbsIdLoop, h]
  | succ j ih =>
    intro t k acc hj htr hfal
    cases t with
    | zero => omega
    | succ t2 =>
      have h0 : pyTruthy (query k) = false := by simpa using hfal 0 (Nat.succ_pos j)
      have harith : k + (j + 1) = k + 1 + j := by omega
      have htr2 : pyTruthy (query (k + 1 + j)) = true := by rwa [harith] at htr
      have hfal2 : ∀ i, i < j → pyTruthy (query (k + 1 + i)) = false := by
        intro i hi
        have := hfal (i + 1) (by omega)
        have ha : k + (i + 1) = k + 1 + i := by omega
        rwa [ha] at this
      have := ih t2 (k + 1) (query k) (by omega) htr2 hfal2
      rw [harith]
      simpa [pbsIdLoop, h0] using this

theorem getPbsStepId_fail (query : Nat → Option String) (trials : Nat)
    (htr : 0 < trials) (hall : ∀ k, k < trials → pyTruthy (query k) = false) :
    getPbsStepId query trials =
      .error (.launcherError ("Could not find id of launched job step")) := by
  have hf := pbsIdLoop_falsy query trials 0 (some ("unassigned")) htr
    (fun j hj => by simpa using hall j hj)
  simp [getPbsStepId, hf]

theorem getPbsStepId_ok (query : Nat → Option String) (trials k : Nat)
    (id : String) (hk : k < trials) (hq : query k = some id) (hid : id ≠ "")
    (hprev : ∀ j, j < k → pyTruthy (query j) = false) :
    getPbsStepId query trials = .ok id := by
  have htr : pyTruthy (query (0 + k)) = true := by
    simpa [Nat.zero_add, hq, pyTruthy] using hid
  have hloop := pbsIdLoop_truthy query k trials 0 (some ("unassigned")) hk htr
    (fun i hi => by simpa using hprev i hi)
  rw [Nat.zero_add, hq] at hloop
  simp [getPbsStepId, hloop, pyTruthy, hid]

theorem run_batch_retry_eq (env : RunEnv) (m : StepMapping) (step : Step)
    (out err : String) (hk : step.kind = .qsubBatchStep)
    (hs : env.submit = (0, out, err)) (hout : pyStrip out = "") :
    run env m step =
      match getPbsStepId env.query 5 with
      | .error e => .error e
      | .ok sid => .ok (some sid, m.add step.name (some sid) none true) := by
  have hmg : step.managed = true := by simp [Step.managed, hk, StepKind.managed]
  have hfalsy : pyTruthy (if out = "" then none else some (pyStrip out)) = false := by
    by_cases h : out = ""
    · simp [h, pyTruthy]
    · simp [h, pyTruthy, hout]
  cases hg : getPbsStepId env.query 5 with
  | error e => simp [run, hk, hs, hfalsy, hmg, hg, Except.map]
  | ok sid => simp [run, hk, hs, hfalsy, hmg, hg, Except.map]

theorem get_ids_pairing (m : StepMapping) (mg : Bool) :
    ∀ (names : List String) (i : Nat) (n : String),
      ((m.get_ids names mg).1)[i]? = some n →
      ∃ e : StepMap, m.lookupEntry n = some e ∧ e.managed = mg ∧
        ((m.get_ids names mg).2)[i]? = some (if mg then e.step_id else e.task_id) := by
  intro names
  induction names with
  | nil => intro i n hi; simp [StepMapping.get_ids] at hi
  | cons hd rest ih =>
    intro i n hi
    rcases hr : m.get_ids rest mg with ⟨ns, ids⟩
    rw [hr] at ih
    cases hl : m.lookupEntry hd with
    | none =>
      have hc : m.get_ids (hd :: rest) mg = (ns, ids) := by
        simp [StepMapping.get_ids, hr, hl]
      rw [hc] at hi ⊢
      exact ih i n hi
    | some e =>
      by_cases hm : e.managed = mg
      · have hc : m.get_ids (hd :: rest) mg =
            (hd :: ns, (if mg then e.step_id else e.task_id) :: ids) := by
          simp [StepMapping.get_ids, hr, hl, hm]
        rw [hc] at hi ⊢
        cases i with
        | zero =>
          simp only [List.getElem?_cons_zero, Option.some.injEq] at hi
          subst hi
          exact ⟨e, hl, hm, by simp⟩
        | succ i2 =>
          simp only [List.getElem?_cons_succ] at hi ⊢
          exact ih i2 n hi
      · have hc : m.get_ids (hd :: rest) mg = (ns, ids) := by
          simp [StepMapping.get_ids, hr, hl, hm]
        rw [hc] at hi ⊢
        exact ih i n hi

/-- Claim C1: for a batch step whose submission output does not yield a job
identifier, `run` polls the scheduler query command with a fixed budget of 5
attempts; if the first attempt `k` within the budget yields an identifier
matching the name of the step, `run` returns that identifier and registers it
in the Step Mapping Registry; if every attempt within the budget fails to
yield one, `run` raises `LauncherError` (the `LaunchError` of the spec) and no
entry for the name of the step is added (the error propagates before
`step_mapping.add` runs, so no registry is returned). -/
theorem run_resolves_id_by_bounded_retry (env : RunEnv) (m : StepMapping)
    (step : Step) (out err : String) (hk : step.kind = .qsubBatchStep)
    (hs : env.submit = (0, out, err)) (hout : pyStrip out = "") :
    (∀ (k : Nat) (id : String), k < 5 → env.query k = some id → id ≠ "" →
        (∀ j, j < k → pyTruthy (env.query j) = false) →
        run env m step = .ok (some id, m.add step.name (some id) none true) ∧
        (m.add step.name (some id) none true).lookupEntry step.name =
          some ⟨some id, none, true⟩) ∧
    ((∀ k, k < 5 → pyTruthy (env.query k) = false) →
        run env m step =
          .error (.launcherError ("Could not find id of launched job step"))) := by
  constructor
  · intro k id hk5 hq hid hprev
    have hg := getPbsStepId_ok env.query 5 k id hk5 hq hid hprev
    rw [run_batch_retry_eq env m step out err hk hs hout, hg]
    exact ⟨rfl, lookupEntry_add_self step.name (some id) none true m⟩
  · intro hall
    have hg := getPbsStepId_fail env.query 5 (by omega) hall
    rw [run_batch_retry_eq env m step out err hk hs hout, hg]

/-- Claim C2: for every registered step name, `stop` does not raise when the
cancel command exits non-zero — the failure is logged as a warning — and the
returned StepInfo always has status `Cancelled`, whatever the post-cancel
poll reported. -/
theorem stop_returns_cancelled_despite_cancel_failure (env : PollEnv)
    (qrc : Int) (qerr : String) (m : StepMapping) (name : String) (e : StepMap)
    (h : m.lookupEntry name = some e) :
    ∃ info : StepInfo, (stop env qrc qerr m name).1 = some info ∧
      info.status = .Cancelled ∧
      (e.managed = true → qrc ≠ 0 →
        (stop env qrc qerr m name).2 =
          ["Unable to cancel job step " ++ name ++ "\n " ++ qerr]) := by
  have hs := get_step_update_single env m name e h
  refine ⟨{ (if e.managed then managedInfoFor env e.step_id
            else unmanagedInfoFor env e.task_id) with status := .Cancelled },
    ?_, rfl, ?_⟩
  · simp [stop, h, hs]
  · intro hm hq
    simp [stop, h, hm, hq, hs]

/-- Claim C3: `get_step_update` returns a flat list in which all managed
results precede all unmanaged results, each StepInfo is paired with its
original logical name (the paired info is exactly the update computed for the
id registered under that name), relative input order is preserved within each
subset, and a name registered as managed yields exactly one pair (whose status
is a member of the canonical enum, by the type of `StepInfo.status`). -/
theorem get_step_update_partition_and_pairing (env : PollEnv) (m : StepMapping)
    (names : List String) :
    (get_step_update env m names).map Prod.fst =
        names.filter (matchesFilter m true) ++ names.filter (matchesFilter m false) ∧
    (∀ pr ∈ get_step_update env m names, ∃ e : StepMap,
        m.lookupEntry pr.1 = some e ∧
        pr.2 = (if e.managed then managedInfoFor env e.step_id
                else unmanagedInfoFor env e.task_id)) ∧
    (∀ (n : String) (e : StepMap), m.lookupEntry n = some e → e.managed = true →
        get_step_update env m [n] = [(n, managedInfoFor env e.step_id)]) := by
  refine ⟨?_, ?_, ?_⟩
  · rw [get_step_update_eq, List.map_append, pairedUpdates_map_fst,
      pairedUpdates_map_fst]
  · intro pr hpr
    rw [get_step_update_eq, List.mem_append] at hpr
    cases hpr with
    | inl hp =>
      obtain ⟨e, he, hm, hval, -⟩ :=
        pairedUpdates_mem m true (managedInfoFor env) names pr hp
      exact ⟨e, he, by rw [hval]; simp [hm]⟩
    | inr hp =>
      obtain ⟨e, he, hm, hval, -⟩ :=
        pairedUpdates_mem m false (unmanagedInfoFor env) names pr hp
      exact ⟨e, he, by rw [hval]; simp [hm]⟩
  · intro n e h hm
    rw [get_step_update_single env m n e h]
    simp [hm]

/-- Claim C4: a managed step whose scheduler query reports the job as no
longer present in the scheduler history (the per-id parse finds nothing, with
no error raised) polls to a StepInfo with status `Completed` and return code
0. -/
theorem managed_missing_history_is_completed (env : PollEnv)
    (ids : List (Option String)) (i : Nat)
    (h1 : i < ids.length) (h2 : i < (getManagedStepUpdate env ids).length)
    (hnone : env.parseStat (pyStr (ids.get ⟨i, h1⟩)) = none) :
    (getManagedStepUpdate env ids).get ⟨i, h2⟩ =
      { status := .Completed, returncode := some 0, output := none,
        error := none } := by
  have hnone2 : env.parseStat (pyStr ids[i]) = none := by
    simpa [List.get_eq_getElem] using hnone
  simp [getManagedStepUpdate, List.get_eq_getElem, List.getElem_map,
    managedInfoFor, PBSStepInfo.mkInfo, hnone2]

/-- Claim C5: for a batch step, `run` executes the submission command
synchronously and, on non-zero exit, raises `LauncherError` whose message
includes the captured stdout and stderr; the error propagates before
`step_mapping.add` runs, so no Registry entry is created. -/
theorem run_batch_submission_failure_raises (env : RunEnv) (m : StepMapping)
    (step : Step) (rc : Int) (out err : String)
    (hk : step.kind = .qsubBatchStep) (hs : env.submit = (rc, out, err))
    (hrc : rc ≠ 0) :
    run env m step =
      .error (.launcherError
        ("Qsub batch submission failed\n " ++ out ++ "\n " ++ err)) ∧
    (∃ p q : String,
        "Qsub batch submission failed\n " ++ out ++ "\n " ++ err =
          p ++ out ++ q) ∧
    (∃ p q : String,
        "Qsub batch submission failed\n " ++ out ++ "\n " ++ err =
          p ++ err ++ q) := by
  refine ⟨?_, ⟨"Qsub batch submission failed\n ", "\n " ++ err, ?_⟩,
    ⟨"Qsub batch submission failed\n " ++ out ++ "\n ", "", ?_⟩⟩
  · simp [run, hk, hs, hrc]
  · simp [String.append_assoc]
  · simp [String.append_assoc]

/-- Claim C6: a settings object of a kind this backend does not support, and a
settings object missing required settings, both make `create_step` raise
synchronously (an error return, so no step is created): the unsupported kind
surfaces as the `TypeError` the source raises, and missing required settings
surface as the `SSConfigError` from the step constructor re-raised as
`LauncherError` — the two concrete forms of the configuration error of the
spec taxonomy. -/
theorem create_step_rejects_invalid_settings (name cwd : String) :
    (∀ t : String, create_step name cwd (.otherKind t) =
        .error (.typeError
          ("RunSettings type " ++ t ++ " not supported by PBSPro"))) ∧
    create_step name cwd (.aprun true) =
        .error (.launcherError
          ("Job step creation failed: missing required settings")) ∧
    create_step name cwd (.qsubBatch true) =
        .error (.launcherError
          ("Job step creation failed: missing required settings")) ∧
    create_step name cwd (.mpirun true) =
        .error (.launcherError
          ("Job step creation failed: missing required settings")) :=
  ⟨fun _ => rfl, rfl, rfl, rfl⟩

/-- Claim C7: `get_ids(names, managed)` returns two parallel sequences
containing only entries whose managed flag equals the filter, positionally
paired name-to-id, in the same relative order as the matching input names;
names with no entry or a non-matching flag are silently omitted, and the
results for the two filter values are disjoint. -/
theorem get_ids_filter_order_pairing_disjoint (m : StepMapping)
    (names : List String) (mg : Bool) :
    (m.get_ids names mg).1 = names.filter (matchesFilter m mg) ∧
    (m.get_ids names mg).1.length = (m.get_ids names mg).2.length ∧
    (∀ (i : Nat) (n : String), ((m.get_ids names mg).1)[i]? = some n →
        ∃ e : StepMap, m.lookupEntry n = some e ∧ e.managed = mg ∧
          ((m.get_ids names mg).2)[i]? =
            some (if mg then e.step_id else e.task_id)) ∧
    (∀ n : String, n ∈ (m.get_ids names true).1 →
        n ∉ (m.get_ids names false).1) := by
  refine ⟨get_ids_fst m mg names, get_ids_length m mg names,
    fun i n hi => get_ids_pairing m mg names i n hi, ?_⟩
  intro n hmem hmem2
  rw [get_ids_fst, List.mem_filter] at hmem hmem2
  have h1 := hmem.2
  have h2 := hmem2.2
  unfold matchesFilter at h1 h2
  cases hl : m.lookupEntry n with
  | none => rw [hl] at h1; simp at h1
  | some e =>
    rw [hl] at h1 h2
    simp at h1 h2
    rw [h1] at h2
    cases h2

/-- Claim C8: for every non-batch (direct-run) step, `run` returns `None` and
records the task id obtained from the asynchronous spawn in the Registry entry
for the name of the step; the returned identifier is non-`None` only when the
step is managed. -/
theorem run_direct_returns_none_and_records_task (env : RunEnv)
    (m : StepMapping) (step : Step) :
    (step.kind ≠ .qsubBatchStep →
        run env m step =
          .ok (none, m.add step.name none (some env.startTask) false) ∧
        (m.add step.name none (some env.startTask) false).lookupEntry
            step.name = some ⟨none, some env.startTask, false⟩) ∧
    (∀ (id : String) (m2 : StepMapping),
        run env m step = .ok (some id, m2) → step.managed = true) := by
  obtain ⟨nm, cw, kd⟩ := step
  constructor
  · intro hne
    cases kd with
    | qsubBatchStep => exact absurd rfl hne
    | aprunStep =>
      exact ⟨by simp [run, Step.managed, StepKind.managed, pyTruthy],
        lookupEntry_add_self nm none (some env.startTask) false m⟩
    | mpirunStep =>
      exact ⟨by simp [run, Step.managed, StepKind.managed, pyTruthy],
        lookupEntry_add_self nm none (some env.startTask) false m⟩
  · intro id m2 hrun
    cases kd with
    | qsubBatchStep => rfl
    | aprunStep =>
      simp [run, Step.managed, StepKind.managed, pyTruthy] at hrun
    | mpirunStep =>
      simp [run, Step.managed, StepKind.managed, pyTruthy] at hrun

/-- Claim C9: every StepInfo produced for a managed step carries return code 0
exactly when its canonical status is `Completed` and `None` for every other
status — the scheduler-side poll never supplies the actual exit code of the
job. -/
theorem managed_update_returncode_only_for_completed (env : PollEnv)
    (ids : List (Option String)) :
    ∀ info ∈ getManagedStepUpdate env ids,
      info.returncode = (if info.status = .Completed then some 0 else none) := by
  intro info hmem
  rw [getManagedStepUpdate, List.mem_map] at hmem
  obtain ⟨sid, -, rfl⟩ := hmem
  cases hp : env.parseStat (pyStr sid) with
  | none => simp [managedInfoFor, PBSStepInfo.mkInfo, hp]
  | some s =>
    by_cases h : env.rawMap s = Status.Completed
    · simp [managedInfoFor, PBSStepInfo.mkInfo, hp, h]
    · simp [managedInfoFor, PBSStepInfo.mkInfo, hp, h]

/-- Claim C10: the StepInfo returned by `stop` differs from the StepInfo the
internal post-cancel poll produced only in its status field: its return code
and captured output references are exactly those of that poll. -/
theorem stop_changes_only_status_field (env : PollEnv) (qrc : Int)
    (qerr : String) (m : StepMapping) (name : String) (e : StepMap)
    (h : m.lookupEntry name = some e) :
    ∃ info : StepInfo, get_step_update env m [name] = [(name, info)] ∧
      (stop env qrc qerr m name).1 =
        some ⟨Status.Cancelled, info.returncode, info.output, info.error⟩ := by
  refine ⟨(if e.managed then managedInfoFor env e.step_id
           else unmanagedInfoFor env e.task_id),
    get_step_update_single env m name e h, ?_⟩
  simp [stop, h, get_step_update_single env m name e h]

/-- A two-entry registry fixture: a managed batch job and an unmanaged task. -/
def mW : StepMapping :=
  [("job_0", ⟨some ("42"), none, true⟩), ("job_1", ⟨none, some ("7"), false⟩)]

/-- A polling oracle fixture: job 42 is absent from the scheduler history,
every other id reports raw status R (running); the one local task failed with
exit code 1. -/
def envP : PollEnv := {
  rawMap := fun s => if s = "R" then .Running else .Unknown
  parseStat := fun sid => if sid = "42" then none else some ("R")
  taskUpdate := fun _ => (.Failed, some 1, some ("o.txt"), some ("e.txt")) }

/-- A batch step fixture. -/
def stepB : Step := ⟨"job_0", "/w", .qsubBatchStep⟩

/-- A direct-run step fixture. -/
def stepA : Step := ⟨"job_2", "/w", .aprunStep⟩

/-- A run oracle fixture whose submission prints nothing and whose third
`qstat` poll reveals the job id. -/
def envQ : RunEnv := {
  submit := (0, "", "")
  startTask := "7"
  query := fun k => if k = 2 then some ("1234.pbs") else none }

/-- A run oracle fixture whose `qstat` polls never reveal a job id. -/
def envQf : RunEnv := {
  submit := (0, "", "")
  startTask := "7"
  query := fun _ => none }

/-- A run oracle fixture whose submission command fails. -/
def envBad : RunEnv := {
  submit := (1, "OUT", "ERR")
  startTask := "7"
  query := fun _ => none }

/-- Witness for C1 at a concrete scheduler: success on attempt 3 of 5, and
exhaustion of all 5 attempts. -/
theorem run_resolves_id_by_bounded_retry_witness :
    run envQ [] stepB = .ok (some ("1234.pbs"),
      StepMapping.add [] ("job_0") (some ("1234.pbs")) none true) ∧
    run envQf [] stepB =
      .error (.launcherError ("Could not find id of launched job step")) := by
  constructor
  · exact ((run_resolves_id_by_bounded_retry envQ [] stepB ("") ("") rfl rfl
      rfl).1 2 ("1234.pbs") (by omega) rfl (by decide)
      (fun j hj => by interval_cases j <;> rfl)).1
  · exact (run_resolves_id_by_bounded_retry envQf [] stepB ("") ("") rfl rfl
      rfl).2 (fun k hk => rfl)

/-- Witness for C2 at a concrete registry and a failing cancel command. -/
theorem stop_returns_cancelled_witness :
    ∃ info : StepInfo, (stop envP 1 ("boom") mW ("job_0")).1 = some info ∧
      info.status = .Cancelled := by
  obtain ⟨info, h1, h2, -⟩ := stop_returns_cancelled_despite_cancel_failure
    envP 1 ("boom") mW ("job_0") ⟨some ("42"), none, true⟩ rfl
  exact ⟨info, h1, h2⟩

/-- Witness for C3: the managed name of the fixture registry yields exactly
one pair. -/
theorem get_step_update_partition_witness :
    get_step_update envP mW (["job_0"]) =
      [(("job_0"), managedInfoFor envP (some ("42")))] :=
  (get_step_update_partition_and_pairing envP mW (["job_0"])).2.2
    ("job_0") ⟨some ("42"), none, true⟩ rfl rfl

/-- Witness for C4: job 42 is absent from the fixture scheduler history. -/
theorem managed_missing_history_witness :
    (getManagedStepUpdate envP ([some ("42")])).get
        ⟨0, by simp [getManagedStepUpdate]⟩ =
      { status := .Completed, returncode := some 0, output := none,
        error := none } :=
  managed_missing_history_is_completed envP ([some ("42")]) 0 (by simp)
    (by simp [getManagedStepUpdate]) rfl

/-- Witness for C5 at a concrete failing submission. -/
theorem run_batch_submission_failure_witness :
    run envBad [] stepB =
      .error (.launcherError
        ("Qsub batch submission failed\n " ++ "OUT" ++ "\n " ++ "ERR")) :=
  (run_batch_submission_failure_raises envBad [] stepB 1 ("OUT") ("ERR")
    rfl rfl (by decide)).1

/-- Witness for C6 at a concrete unsupported settings type. -/
theorem create_step_rejects_witness :
    create_step ("m1") ("/w") (.otherKind ("SrunSettings")) =
      .error (.typeError
        ("RunSettings type " ++ "SrunSettings" ++ " not supported by PBSPro")) :=
  (create_step_rejects_invalid_settings ("m1") ("/w")).1 ("SrunSettings")

/-- Witness for C7: positional pairing at index 0 of the managed filter. -/
theorem get_ids_filter_witness :
    ∃ e : StepMap, mW.lookupEntry ("job_0") = some e ∧ e.managed = true ∧
      ((mW.get_ids (["job_1", "job_0", "nope"]) true).2)[0]? =
        some (if true then e.step_id else e.task_id) :=
  (get_ids_filter_order_pairing_disjoint mW (["job_1", "job_0", "nope"])
    true).2.2.1 0 ("job_0") rfl

/-- Witness for C8 at a concrete direct-run step. -/
theorem run_direct_witness :
    run envQ [] stepA =
      .ok (none, StepMapping.add [] ("job_2") none (some ("7")) false) :=
  ((run_direct_returns_none_and_records_task envQ [] stepA).1 (by decide)).1

/-- Witness for C9 at the fixture poll oracle. -/
theorem managed_returncode_witness :
    (managedInfoFor envP (some ("42"))).returncode =
      (if (managedInfoFor envP (some ("42"))).status = .Completed then some 0
       else none) :=
  managed_update_returncode_only_for_completed envP ([some ("42")])
    (managedInfoFor envP (some ("42"))) (by simp [getManagedStepUpdate])

/-- Witness for C10 at the fixture registry. -/
theorem stop_frame_witness :
    ∃ info : StepInfo, get_step_update envP mW (["job_0"]) =
        [(("job_0"), info)] ∧
      (stop envP 0 ("") mW ("job_0")).1 =
        some ⟨Status.Cancelled, info.returncode, info.output, info.error⟩ :=
  stop_changes_only_status_field envP 0 ("") mW ("job_0")
    ⟨some ("42"), none, true⟩ rfl

end SmartSimPBS
